import Mathlib

/-!
Shallow embedding of the berryberry sensor-acquisition pipeline
(`sensor_collector.py`, `bmp280_simple.py`, `ens160_simple.py`,
`buzzer_control.py`) over exact rational arithmetic.

Modelling conventions:
* Python `int` is `ℤ`; Python floats are idealised as exact rationals `ℚ`
  (the code's arithmetic carries no float-specific branching, so the exact
  model is faithful on the concrete inputs used below).
* Python `x >> n` on possibly-negative ints is floor division by `2 ^ n`
  (`Int.fdiv`), `x << n` is multiplication, `//` is `Int.fdiv`,
  `x & 0xFF` is `Int.emod x 256`.
* Python `int(x)` truncates toward zero (`pyInt`); Python `round` is
  round-half-to-even (`roundHalfEven`, `round2`).
* Python dicts are association lists with insertion-order keys
  (`getField` / `setField` reproduce lookup and assignment).
* I2C/ADC transactions are inputs: each driver's per-cycle outcome is a
  field of `CycleEnv` (`none` models a bus fault, an exception or an
  implausible decode, all of which the collector treats identically).
-/

namespace BerryBerry

/-- Python `x << n` on integers. -/
def shl (x : Int) (n : Nat) : Int := x * 2 ^ n

/-- Python `x >> n` on integers: arithmetic shift, i.e. floor division. -/
def shr (x : Int) (n : Nat) : Int := Int.fdiv x (2 ^ n)

/-- Floor of a rational, written out on the numerator and denominator so
that it evaluates by kernel reduction. -/
def rfloor (q : ℚ) : ℤ := Int.fdiv q.num q.den

/-- Python `int(q)`: truncation toward zero. -/
def pyInt (q : ℚ) : ℤ := if 0 ≤ q then rfloor q else -rfloor (-q)

/-- Python `round(q)`: round half to even (banker's rounding). -/
def roundHalfEven (q : ℚ) : ℤ :=
  if q - rfloor q < 1/2 then rfloor q
  else if 1/2 < q - rfloor q then rfloor q + 1
  else if (rfloor q).emod 2 = 0 then rfloor q else rfloor q + 1

/-- Python `round(q, 2)`: rounding to 2 decimal places. -/
def round2 (q : ℚ) : ℚ := (roundHalfEven (q * 100) : ℚ) / 100

/-- Arithmetic mean of a list of rationals (`statistics.mean`). -/
def mean (l : List ℚ) : ℚ := l.sum / l.length

/-! ## BMP280 driver (`bmp280_simple.py`) -/

/-- The 12-coefficient calibration table read by `_read_calibration`:
`dig_T1`, `dig_P1` are unsigned 16-bit, the rest signed 16-bit. -/
structure Calib where
  dig_T1 : Int
  dig_T2 : Int
  dig_T3 : Int
  dig_P1 : Int
  dig_P2 : Int
  dig_P3 : Int
  dig_P4 : Int
  dig_P5 : Int
  dig_P6 : Int
  dig_P7 : Int
  dig_P8 : Int
  dig_P9 : Int
deriving DecidableEq, Repr

/-- Embeds `SimpleBMP280._compensate_temperature`: returns the pair
(`t_fine` as stored in `self.t_fine`, returned temperature in °C). -/
def compensate_temperature (c : Calib) (temp_raw : Int) : Int × ℚ :=
  let var1 := shr ((shr temp_raw 3 - shl c.dig_T1 1) * c.dig_T2) 11
  let var2 := shr (shr ((shr temp_raw 4 - c.dig_T1) * (shr temp_raw 4 - c.dig_T1)) 12
                    * c.dig_T3) 14
  let t_fine := var1 + var2
  (t_fine, ((shr (t_fine * 5 + 128) 8 : Int) : ℚ) / 100)

/-- Embeds `SimpleBMP280._compensate_pressure`, transcribed statement by statement;
`none` is the `return None` taken when the first-stage divisor is zero. -/
def compensate_pressure (c : Calib) (t_fine press_raw : Int) : Option ℚ :=
  let var1 := t_fine - 128000
  let var2 := var1 * var1 * c.dig_P6
  let var2 := var2 + shl (var1 * c.dig_P5) 17
  let var2 := var2 + shl c.dig_P4 35
  let var1 := shr (var1 * var1 * c.dig_P3) 8 + shl (var1 * c.dig_P2) 12
  let var1 := shr ((shl 1 47 + var1) * c.dig_P1) 33
  if var1 = 0 then none
  else
    let p := 1048576 - press_raw
    let p := Int.fdiv ((shl p 31 - var2) * 3125) var1
    let var1 := shr (c.dig_P9 * shr p 13 * shr p 13) 25
    let var2 := shr (c.dig_P8 * p) 19
    let p := shr (p + var1 + var2) 8 + shl c.dig_P7 4
    some ((p : ℚ) / 25600)

/-- The first-stage divisor of the pressure compensation (the value the
`if var1 == 0` guard inspects), named for stating the claims. -/
def first_stage_divisor (c : Calib) (t_fine : Int) : Int :=
  let var1 := t_fine - 128000
  let var1 := shr (var1 * var1 * c.dig_P3) 8 + shl (var1 * c.dig_P2) 12
  shr ((shl 1 47 + var1) * c.dig_P1) 33

/-- The integer fixed-point result `p` of the pressure pipeline (the spec's
`p_fixed`), as computed after the zero-divisor guard passes. -/
def p_fixed_pipeline (c : Calib) (t_fine press_raw : Int) : Int :=
  let var1 := t_fine - 128000
  let var2 := var1 * var1 * c.dig_P6 + shl (var1 * c.dig_P5) 17 + shl c.dig_P4 35
  let p := 1048576 - press_raw
  let p := Int.fdiv ((shl p 31 - var2) * 3125) (first_stage_divisor c t_fine)
  let v1 := shr (c.dig_P9 * shr p 13 * shr p 13) 25
  let v2 := shr (c.dig_P8 * p) 19
  shr (p + v1 + v2) 8 + shl c.dig_P7 4

/-- Embeds `SimpleBMP280.read` on already-decoded raw values: compensates
temperature, then pressure, returning `(None, None)` (here `none`) when the
pressure compensation reports failure, else both values rounded to 2
decimals. -/
def bmp280_read (c : Calib) (temp_raw press_raw : Int) : Option (ℚ × ℚ) :=
  let tr := compensate_temperature c temp_raw
  match compensate_pressure c tr.1 press_raw with
  | none => none
  | some pressure => some (round2 tr.2, round2 pressure)

/-- The BMP280 datasheet example calibration table. -/
def calibEx : Calib :=
  ⟨27504, 26435, -1000, 36477, -10685, 3024, 2855, 140, -7, 15500, -14600, 6000⟩

/-! ## ENS160 driver (`ens160_simple.py`) -/

/-- The 16-bit temperature word computed by `SimpleENS160.set_environment`:
`int((temperature + 273.15) * 64)`. -/
def set_environment_temp_word (temperature : ℚ) : ℤ :=
  pyInt ((temperature + 273.15) * 64)

/-- The 16-bit humidity word computed by `SimpleENS160.set_environment`:
`int((humidity / 100.0) * 512)`. -/
def set_environment_rh_word (humidity : ℚ) : ℤ :=
  pyInt (humidity / 100 * 512)

/-- Embeds `SimpleENS160._write_word`: the byte pair written on the bus,
low byte (`value & 0xFF`) first, then high byte (`(value >> 8) & 0xFF`). -/
def write_word_bytes (value : ℤ) : ℤ × ℤ :=
  (value.emod 256, (shr value 8).emod 256)

/-- Embeds `SimpleENS160.set_environment`: the two byte pairs written to registers
0x13 (temperature) and 0x15 (humidity). -/
def set_environment (temperature humidity : ℚ) : (ℤ × ℤ) × (ℤ × ℤ) :=
  (write_word_bytes (set_environment_temp_word temperature),
   write_word_bytes (set_environment_rh_word humidity))

/-- The temperature word as the spec describes it: `round((T+273.15)*64)`.
Stated from the spec's words, to be compared with the source's
`set_environment_temp_word`. -/
def spec_claimed_temp_word (temperature : ℚ) : ℤ :=
  roundHalfEven ((temperature + 273.15) * 64)

/-- The humidity word as the spec describes it: `round(H/100*512)`.
Stated from the spec's words, to be compared with the source's
`set_environment_rh_word`. -/
def spec_claimed_rh_word (humidity : ℚ) : ℤ :=
  roundHalfEven (humidity / 100 * 512)

/-! ## Buzzer actuator (`buzzer_control.py`)

The timer callback runs on its own timeline; we model the controller's two
methods as pure state transformers that also emit the trace of externally
visible actions (GPIO writes, timer cancel/arm) in program order.  Whether
the currently stored `threading.Timer` is still alive at the moment
`stop_buzzing` inspects it is an input (`timerAlive`). -/

/-- Externally visible actions of the buzzer controller, in program order. -/
inductive BuzzAction
  /-- Embeds `GPIO.output(pin, HIGH)`: buzzer off. -/
  | setHigh
  /-- Embeds `GPIO.output(pin, LOW)`: buzzer on. -/
  | setLow
  /-- Embeds `timer.cancel()` on the timer with the given id. -/
  | cancel (tid : ℕ)
  /-- Embeds `threading.Timer(duration, stop).start()`: arm auto-off. -/
  | arm (tid : ℕ) (duration : ℚ)
deriving DecidableEq, Repr

/-- An armed auto-off timer: its identity and its full duration. -/
structure BuzzerTimer where
  tid : ℕ
  duration : ℚ
deriving DecidableEq, Repr

/-- State of `BuzzerController`: the `buzzing` flag, the stored timer
object (kept even after it fires or is cancelled, as in the source), and a
fresh-id counter for naming the next `threading.Timer`. -/
structure BuzzerState where
  buzzing : Bool
  timer : Option BuzzerTimer
  nextId : ℕ
deriving DecidableEq, Repr

/-- Embeds `BuzzerController.stop_buzzing`: sets the output high if buzzing, then
cancels the stored timer if it is alive.  The stored timer object is not
cleared by the source. -/
def stop_buzzing (st : BuzzerState) (timerAlive : Bool) :
    BuzzerState × List BuzzAction :=
  let acts1 := if st.buzzing then [BuzzAction.setHigh] else []
  let acts2 := match st.timer with
    | some t => if timerAlive then [BuzzAction.cancel t.tid] else []
    | none => []
  ({ st with buzzing := false }, acts1 ++ acts2)

/-- Embeds `BuzzerController.start_buzzing`: if already buzzing, first runs
`stop_buzzing`; then drives the output low, sets `buzzing`, and arms a
fresh auto-off timer for the requested duration. -/
def start_buzzing (st : BuzzerState) (duration : ℚ) (timerAlive : Bool) :
    BuzzerState × List BuzzAction :=
  let s1 := if st.buzzing then stop_buzzing st timerAlive else (st, [])
  let newTimer : BuzzerTimer := ⟨s1.1.nextId, duration⟩
  ({ buzzing := true, timer := some newTimer, nextId := s1.1.nextId + 1 },
   s1.2 ++ [BuzzAction.setLow, BuzzAction.arm newTimer.tid duration])

/-- Whether an action arms an auto-off timer. -/
def isArm : BuzzAction → Bool
  | BuzzAction.arm _ _ => true
  | _ => false

/-- Number of timer-arming actions in a trace. -/
def countArms (l : List BuzzAction) : ℕ := (l.filter isArm).length

/-! ## Collector (`sensor_collector.py`) -/

/-- Field names of the reading/record dictionaries built by
`SensorCollector`. -/
inductive Field
  | temperature_aht
  | temperature_bmp
  | temperature
  | humidity
  | pressure
  | altitude
  | aqi
  | tvoc
  | eco2
  | mq2_adc
  | mq2_voltage
  | mq2_status
  | timestamp
  | reading_count
  | temperature_source
  | data_source
  | samples_count
deriving DecidableEq, Repr

/-- A Python dict from field name to numeric value, as an insertion-ordered
association list. -/
abbrev Reading : Type := List (Field × ℚ)

/-- Dict lookup: `d.get(k)` / `k in d`. -/
def getField : Reading → Field → Option ℚ
  | [], _ => none
  | (k, v) :: rest, key => if k = key then some v else getField rest key

/-- Dict lookup with default: `d.get(k, default)`. -/
def getFieldD (d : Reading) (k : Field) (default : ℚ) : ℚ :=
  (getField d k).getD default

/-- Dict assignment `d[k] = v`: replaces the existing binding in place, or
appends a new one. -/
def setField : Reading → Field → ℚ → Reading
  | [], k, v => [(k, v)]
  | (k', v') :: rest, k, v =>
      if k' = k then (k, v) :: rest else (k', v') :: setField rest k v

/-- Per-driver flags of the collector (`init_success` keys / the
`self.sensors` registry). -/
structure DriverFlags where
  bmp280 : Bool
  mq2 : Bool
  ens160 : Bool
  aht21 : Bool
deriving DecidableEq, Repr

/-- State of `SensorCollector` relevant to the claims: which drivers
initialised successfully (`init_success`, never reset by `close`), which
driver objects are still in the `self.sensors` registry (`present`,
cleared by `close`), the monotonic `reading_count`, and the `initialized`
flag (`inited`). -/
structure CollectorState where
  init_success : DriverFlags
  present : DriverFlags
  reading_count : ℕ
  inited : Bool
deriving DecidableEq, Repr

/-- One acquisition cycle's external inputs: each driver's outcome
(`none` = the driver raised, returned `None`-like sentinels, or its
registry entry is consulted but missing — all absorbed identically by the
collector), plus the wall-clock time.  `aht` is `(humidity, temperature)`;
`bmp` is `(temperature, pressure)`; `ens` is `(aqi, tvoc, eco2)`;
`mq2gas` is `(adc, voltage, status)`. -/
structure CycleEnv where
  aht : Option (ℚ × ℚ)
  bmp : Option (ℚ × ℚ)
  ens : Option (ℚ × ℚ × ℚ)
  mq2gas : Option (ℚ × ℚ × ℚ)
  now : ℚ
deriving DecidableEq, Repr

/-- The data fields accumulated by `read_single_measurement` before the
metadata step: each driver contributes its fields only when it was
initialised, its registry entry is present, and its read succeeded.  The
altitude is derived from the BMP280 pressure via `calculate_altitude`,
abstracted as `altFn` (its `** 0.1903` floating-point power has no exact
embedding; every claim below holds for an arbitrary `altFn`). -/
def cycleFields (altFn : ℚ → ℚ) (st : CollectorState) (env : CycleEnv) :
    Reading :=
  (if st.init_success.aht21 && st.present.aht21 then
    match env.aht with
    | some hv => [(Field.temperature_aht, hv.2), (Field.humidity, hv.1)]
    | none => []
  else []) ++
  (if st.init_success.bmp280 && st.present.bmp280 then
    match env.bmp with
    | some tp => [(Field.temperature_bmp, tp.1), (Field.pressure, tp.2),
                  (Field.altitude, altFn tp.2)]
    | none => []
  else []) ++
  (if st.init_success.ens160 && st.present.ens160 then
    match env.ens with
    | some ae => [(Field.aqi, ae.1), (Field.tvoc, ae.2.1), (Field.eco2, ae.2.2)]
    | none => []
  else []) ++
  (if st.init_success.mq2 && st.present.mq2 then
    match env.mq2gas with
    | some mv => [(Field.mq2_adc, mv.1), (Field.mq2_voltage, mv.2.1),
                  (Field.mq2_status, mv.2.2)]
    | none => []
  else [])

/-- Embeds `SensorCollector.read_single_measurement`: merges driver fields; when
none contributed, returns `None` leaving the state untouched; otherwise
appends timestamp and the pre-increment reading counter, increments the
counter, resolves the final temperature and its source tag by the fixed
priority (AHT21 first, BMP280 fallback), pops the temporary per-driver
temperature fields, and tags the result as a single-shot read
(`data_source = 0`). -/
def read_single_measurement (altFn : ℚ → ℚ) (st : CollectorState)
    (env : CycleEnv) : Option Reading × CollectorState :=
  let data := cycleFields altFn st env
  if data.isEmpty then (none, st)
  else
    let data := data ++ [(Field.timestamp, env.now),
                         (Field.reading_count, (st.reading_count : ℚ))]
    let data :=
      match getField data Field.temperature_aht with
      | some t => data ++ [(Field.temperature, t), (Field.temperature_source, 0)]
      | none =>
        match getField data Field.temperature_bmp with
        | some t => data ++ [(Field.temperature, t), (Field.temperature_source, 1)]
        | none => data
    let data := data.filter (fun kv =>
      !(kv.1 == Field.temperature_aht) && !(kv.1 == Field.temperature_bmp))
    (some (data ++ [(Field.data_source, 0)]),
     { st with reading_count := st.reading_count + 1 })

/-- The categorical fields the reduction treats as last-value-wins
(the source's list `['aqi', 'mq2_status', 'temperature_source']`). -/
def categorical : List Field :=
  [Field.aqi, Field.mq2_status, Field.temperature_source]

/-- The values of field `k` across the window, in chronological order
(the accumulation into `numeric_fields`; every stored value is numeric). -/
def fieldValues (readings : List Reading) (k : Field) : List ℚ :=
  readings.filterMap (fun r => getField r k)

/-- The keys of all readings of the window, concatenated in order. -/
def concatKeys : List Reading → List Field
  | [] => []
  | r :: rest => r.map Prod.fst ++ concatKeys rest

/-- The keys appearing in the window, in first-appearance order (the
iteration order of `numeric_fields`). -/
def allFieldKeys (readings : List Reading) : List Field :=
  (concatKeys readings).dedup

/-- One iteration of the reduction loop of `_calculate_averages`: for key
`k`, write the last reading's value (default 0) if `k` is categorical,
else the 2-decimal-rounded mean of the collected values. -/
def reduceStep (readings : List Reading) (res : Reading) (k : Field) :
    Reading :=
  let values := fieldValues readings k
  if values.isEmpty then res
  else if k ∈ categorical then
    setField res k (getFieldD (readings.getLastD []) k 0)
  else
    setField res k (round2 (mean values))

/-- Embeds `SensorCollector._calculate_averages`: presets timestamp, sample count
and the windowed `data_source = 1` tag, runs the reduction loop over every
key of the window, then recomputes altitude from the reduced pressure when
present. -/
def calculate_averages (altFn : ℚ → ℚ) (now : ℚ)
    (readings : List Reading) : Reading :=
  if readings.isEmpty then []
  else
    let base : Reading :=
      [(Field.timestamp, now),
       (Field.samples_count, (readings.length : ℚ)),
       (Field.data_source, 1)]
    let result := (allFieldKeys readings).foldl (reduceStep readings) base
    match getField result Field.pressure with
    | some p => setField result Field.altitude (altFn p)
    | none => result

/-- Result of `collect_multiple_readings`: either the error dictionary
`{'error_code': 1, 'timestamp': t, 'samples_count': 0}` returned when no
cycle produced data, or the averaged record. -/
inductive CollectResult
  | err (timestamp : ℚ) (samples_count : ℕ)
  | ok (record : Reading)
deriving DecidableEq, Repr

/-- One iteration of the collection loop: reads once, appends the reading
to the window when it succeeded, drops the cycle otherwise. -/
def collectStep (altFn : ℚ → ℚ) (acc : List Reading × CollectorState)
    (env : CycleEnv) : List Reading × CollectorState :=
  let r := read_single_measurement altFn acc.2 env
  (match r.1 with
   | some d => acc.1 ++ [d]
   | none => acc.1, r.2)

/-- Embeds `SensorCollector.collect_multiple_readings`: runs one
`read_single_measurement` per cycle environment, keeps the successful
readings in order, and either signals the empty-window error dictionary
or reduces the window via `calculate_averages`. -/
def collect_multiple_readings (altFn : ℚ → ℚ) (st : CollectorState)
    (envs : List CycleEnv) (now : ℚ) : CollectResult × CollectorState :=
  let res := envs.foldl (collectStep altFn) ([], st)
  if res.1.isEmpty then (CollectResult.err now 0, res.2)
  else (CollectResult.ok (calculate_averages altFn now res.1), res.2)

/-- The `data_source` metadata field of a collection outcome, when the
outcome is a record. -/
def record_data_source : CollectResult → Option ℚ
  | CollectResult.ok record => getField record Field.data_source
  | CollectResult.err _ _ => none

/-- Embeds `SensorCollector.close`: clears the `self.sensors` registry and drops
the `initialized` flag; `init_success` and `reading_count` are left as
they were. -/
def close (st : CollectorState) : CollectorState :=
  { st with present := ⟨false, false, false, false⟩, inited := false }

/-- The categorical reduction as the spec phrases it: the value of the
chronologically last Reading that contains the field.  Stated from the
spec's words, to be compared with the source's `last_reading.get(key, 0)`
behaviour inside `reduceStep`. -/
def lastReadingContaining (readings : List Reading) (k : Field) : Option ℚ :=
  match readings with
  | [] => none
  | r :: rest =>
      match lastReadingContaining rest k with
      | some v => some v
      | none => getField r k

/-! ## Concrete instances used to evaluate the embedding -/

/-- A stand-in altitude function (the claims about the aggregator hold for
an arbitrary `altFn`; the constant 0 suffices for evaluation). -/
def altFn0 : ℚ → ℚ := fun _ => 0

/-- A collector in which all four drivers initialised and none has been
shut down yet. -/
def st0 : CollectorState :=
  ⟨⟨true, true, true, true⟩, ⟨true, true, true, true⟩, 0, true⟩

/-- A cycle in which the AHT21 returns humidity 40, temperature 20 and the
other drivers fail. -/
def envA : CycleEnv := ⟨some (40, 20), none, none, none, 100⟩

/-- A cycle in which every driver fails. -/
def envDead : CycleEnv := ⟨none, none, none, none, 100⟩

/-- The single-shot reading produced from `st0` and `envA`. -/
def r0 : Reading :=
  [(Field.humidity, 40), (Field.timestamp, 100), (Field.reading_count, 0),
   (Field.temperature, 20), (Field.temperature_source, 0),
   (Field.data_source, 0)]

/-- A first window reading: gas index 3, pressure 1000, altitude 10. -/
def r1 : Reading :=
  [(Field.aqi, 3), (Field.pressure, 1000), (Field.altitude, 10)]

/-- A second window reading with no gas index: temperature 20,
pressure 1010, altitude 20. -/
def r2 : Reading :=
  [(Field.temperature, 20), (Field.pressure, 1010), (Field.altitude, 20)]

/-- A window reading carrying only a pressure field. -/
def rp : Reading := [(Field.pressure, 1000)]

/-- The BMP280 datasheet calibration table with `dig_P1 = 0`: its
first-stage divisor evaluates to zero for every `t_fine`. -/
def calibZ : Calib :=
  ⟨27504, 26435, -1000, 0, -10685, 3024, 2855, 140, -7, 15500, -14600, 6000⟩

/-! ## Basic lemmas about the numeric helpers -/

theorem rfloor_eq (q : ℚ) : rfloor q = ⌊q⌋ := by
  rw [rfloor, Rat.floor_def, Int.fdiv_eq_ediv _ (Int.natCast_nonneg q.den)]

theorem roundHalfEven_intCast (n : ℤ) : roundHalfEven (n : ℚ) = n := by
  rw [roundHalfEven, rfloor_eq, Int.floor_intCast]
  norm_num

theorem round2_intCast (n : ℤ) : round2 (n : ℚ) = n := by
  have h : ((n : ℚ)) * 100 = ((n * 100 : ℤ) : ℚ) := by push_cast; ring
  rw [round2, h, roundHalfEven_intCast]
  push_cast
  ring

theorem mean_singleton (x : ℚ) : mean [x] = x := by
  simp [mean]

theorem mean_pair (x y : ℚ) : mean [x, y] = (x + y) / 2 := by
  norm_num [mean]

/-! ## Lemmas about dictionary access -/

theorem getField_setField_self (d : Reading) (k : Field) (v : ℚ) :
    getField (setField d k v) k = some v := by
  induction d with
  | nil => simp [setField, getField]
  | cons hd tl ih =>
      obtain ⟨k', v'⟩ := hd
      by_cases h : k' = k
      · simp [setField, getField, h]
      · simp [setField, getField, h, ih]

theorem getField_setField_of_ne (d : Reading) {k k' : Field} (h : k' ≠ k)
    (v : ℚ) : getField (setField d k' v) k = getField d k := by
  induction d with
  | nil => simp [setField, getField, h]
  | cons hd tl ih =>
      obtain ⟨k'', v''⟩ := hd
      by_cases h2 : k'' = k'
      · subst h2
        simp [setField, getField, h]
      · simp only [setField, if_neg h2, getField]
        by_cases h3 : k'' = k
        · simp [h3]
        · simp [h3, ih]

theorem mem_keys_of_getField {r : Reading} {k : Field} {v : ℚ}
    (h : getField r k = some v) : k ∈ r.map Prod.fst := by
  induction r with
  | nil => simp [getField] at h
  | cons hd tl ih =>
      obtain ⟨k', v'⟩ := hd
      by_cases h2 : k' = k
      · simp [h2]
      · simp only [getField, if_neg h2] at h
        simpa using Or.inr (ih h)

theorem mem_concatKeys {rs : List Reading} {k : Field}
    (h : fieldValues rs k ≠ []) : k ∈ concatKeys rs := by
  induction rs with
  | nil => simp [fieldValues] at h
  | cons r tl ih =>
      rw [concatKeys, List.mem_append]
      cases hr : getField r k with
      | none =>
          refine Or.inr (ih ?_)
          simpa [fieldValues, List.filterMap_cons, hr] using h
      | some v => exact Or.inl (mem_keys_of_getField hr)

theorem mem_allFieldKeys {rs : List Reading} {k : Field}
    (h : fieldValues rs k ≠ []) : k ∈ allFieldKeys rs :=
  List.mem_dedup.mpr (mem_concatKeys h)

/-! ## Lemmas about the reduction loop -/

theorem getField_reduceStep_of_ne (rs : List Reading) (res : Reading)
    {k k' : Field} (h : k' ≠ k) :
    getField (reduceStep rs res k') k = getField res k := by
  by_cases h1 : (fieldValues rs k').isEmpty
  · simp [reduceStep, h1]
  · by_cases h2 : k' ∈ categorical
    · simp [reduceStep, h1, h2, getField_setField_of_ne _ h]
    · simp [reduceStep, h1, h2, getField_setField_of_ne _ h]

theorem getField_foldl_reduceStep_of_not_mem (rs : List Reading)
    (keys : List Field) (res : Reading) {k : Field} (h : k ∉ keys) :
    getField (keys.foldl (reduceStep rs) res) k = getField res k := by
  induction keys generalizing res with
  | nil => rfl
  | cons k' tl ih =>
      have hk' : k' ≠ k := by
        rintro rfl
        exact h (List.mem_cons_self k' tl)
      rw [List.foldl_cons, ih _ (fun hm => h (List.mem_cons_of_mem _ hm)),
        getField_reduceStep_of_ne rs res hk']

theorem getField_foldl_reduceStep_of_mem (rs : List Reading)
    (keys : List Field) (res : Reading) {k : Field} (hnd : keys.Nodup)
    (hk : k ∈ keys) (hv : fieldValues rs k ≠ []) :
    getField (keys.foldl (reduceStep rs) res) k =
      if k ∈ categorical then some (getFieldD (rs.getLastD []) k 0)
      else some (round2 (mean (fieldValues rs k))) := by
  induction keys generalizing res with
  | nil => cases hk
  | cons k' tl ih =>
      rw [List.foldl_cons]
      rcases List.mem_cons.mp hk with rfl | hmem
      · rw [getField_foldl_reduceStep_of_not_mem rs tl _
            (List.nodup_cons.mp hnd).1]
        have hv2 : (fieldValues rs k).isEmpty = false := by
          simpa [List.isEmpty_iff] using hv
        by_cases hc : k ∈ categorical
        · simp [reduceStep, hv2, hc, getField_setField_self]
        · simp [reduceStep, hv2, hc, getField_setField_self]
      · exact ih _ (List.nodup_cons.mp hnd).2 hmem

/-- The reduced value of any non-altitude key with at least one collected
value: last value (default 0) for categorical keys, rounded mean for the
rest. -/
theorem getField_calculate_averages (altFn : ℚ → ℚ) (now : ℚ)
    (rs : List Reading) {k : Field} (hne : rs ≠ [])
    (hv : fieldValues rs k ≠ []) (hka : k ≠ Field.altitude) :
    getField (calculate_averages altFn now rs) k =
      if k ∈ categorical then some (getFieldD (rs.getLastD []) k 0)
      else some (round2 (mean (fieldValues rs k))) := by
  have h0 : rs.isEmpty = false := by simpa [List.isEmpty_iff] using hne
  rw [calculate_averages]
  simp only [h0, Bool.false_eq_true, if_false]
  have hres := getField_foldl_reduceStep_of_mem rs (allFieldKeys rs)
    [(Field.timestamp, now), (Field.samples_count, (rs.length : ℚ)),
     (Field.data_source, 1)]
    (List.nodup_dedup _) (mem_allFieldKeys hv) hv
  cases hp : getField ((allFieldKeys rs).foldl (reduceStep rs)
      [(Field.timestamp, now), (Field.samples_count, (rs.length : ℚ)),
       (Field.data_source, 1)]) Field.pressure with
  | none => simpa [hp] using hres
  | some p =>
      simp only [hp]
      rw [getField_setField_of_ne _ (fun e => hka e.symm)]
      exact hres

/-- After reduction, the altitude field is `altFn` of the reduced pressure
whenever the record has a pressure field. -/
theorem calculate_averages_altitude (altFn : ℚ → ℚ) (now : ℚ)
    (rs : List Reading) {p : ℚ} (hne : rs ≠ [])
    (hp : getField (calculate_averages altFn now rs) Field.pressure = some p) :
    getField (calculate_averages altFn now rs) Field.altitude
      = some (altFn p) := by
  have h0 : rs.isEmpty = false := by simpa [List.isEmpty_iff] using hne
  rw [calculate_averages] at hp ⊢
  simp only [h0, Bool.false_eq_true, if_false] at hp ⊢
  cases hq : getField ((allFieldKeys rs).foldl (reduceStep rs)
      [(Field.timestamp, now), (Field.samples_count, (rs.length : ℚ)),
       (Field.data_source, 1)]) Field.pressure with
  | none => simp [hq] at hp
  | some q =>
      simp only [hq] at hp ⊢
      rw [getField_setField_of_ne _ (by decide : Field.altitude ≠ Field.pressure)]
        at hp
      rw [hq] at hp
      obtain rfl : q = p := by injection hp
      exact getField_setField_self _ _ _

/-! ## Lemmas about the collector lifecycle -/

theorem read_single_of_no_fields (altFn : ℚ → ℚ) (st : CollectorState)
    (env : CycleEnv) (h : cycleFields altFn st env = []) :
    read_single_measurement altFn st env = (none, st) := by
  simp [read_single_measurement, h]

theorem read_single_of_fields (altFn : ℚ → ℚ) (st : CollectorState)
    (env : CycleEnv) (h : cycleFields altFn st env ≠ []) :
    (∃ r, (read_single_measurement altFn st env).1 = some r) ∧
      (read_single_measurement altFn st env).2
        = { st with reading_count := st.reading_count + 1 } := by
  have h0 : (cycleFields altFn st env).isEmpty = false := by
    simpa [List.isEmpty_iff] using h
  rw [read_single_measurement]
  simp only [h0, Bool.false_eq_true, if_false]
  exact ⟨⟨_, rfl⟩, by trivial⟩

theorem cycleFields_close (altFn : ℚ → ℚ) (st : CollectorState)
    (env : CycleEnv) : cycleFields altFn (close st) env = [] := by
  simp [cycleFields, close]

theorem foldl_collectStep_of_all_empty (altFn : ℚ → ℚ) (st : CollectorState)
    (envs : List CycleEnv) (h : ∀ env ∈ envs, cycleFields altFn st env = []) :
    envs.foldl (collectStep altFn) ([], st) = ([], st) := by
  induction envs with
  | nil => rfl
  | cons env tl ih =>
      rw [List.foldl_cons]
      have hstep : collectStep altFn ([], st) env = ([], st) := by
        simp [collectStep,
          read_single_of_no_fields altFn st env (h env (List.mem_cons_self _ _))]
      rw [hstep]
      exact ih (fun e he => h e (List.mem_cons_of_mem _ he))

theorem collect_of_all_empty (altFn : ℚ → ℚ) (st : CollectorState)
    (envs : List CycleEnv) (now : ℚ)
    (h : ∀ env ∈ envs, cycleFields altFn st env = []) :
    collect_multiple_readings altFn st envs now
      = (CollectResult.err now 0, st) := by
  rw [collect_multiple_readings, foldl_collectStep_of_all_empty altFn st envs h]
  rfl

theorem collect_after_close (altFn : ℚ → ℚ) (st : CollectorState)
    (envs : List CycleEnv) (now : ℚ) :
    collect_multiple_readings altFn (close st) envs now
      = (CollectResult.err now 0, close st) :=
  collect_of_all_empty altFn (close st) envs now
    (fun env _ => cycleFields_close altFn st env)

/-! ## Lemmas about the pressure compensation -/

theorem compensate_pressure_of_zero_divisor (c : Calib)
    (t_fine press_raw : Int) (h : first_stage_divisor c t_fine = 0) :
    compensate_pressure c t_fine press_raw = none := by
  rw [compensate_pressure]
  rw [first_stage_divisor] at h
  simp only [h, if_true]

theorem compensate_pressure_of_ne_divisor (c : Calib)
    (t_fine press_raw : Int) (h : first_stage_divisor c t_fine ≠ 0) :
    compensate_pressure c t_fine press_raw
      = some ((p_fixed_pipeline c t_fine press_raw : ℚ) / 25600) := by
  rw [compensate_pressure, p_fixed_pipeline]
  rw [first_stage_divisor] at h
  simp only [h, if_false, first_stage_divisor]

theorem bmp280_read_of_zero_divisor (c : Calib) (temp_raw press_raw : Int)
    (h : first_stage_divisor c (compensate_temperature c temp_raw).1 = 0) :
    bmp280_read c temp_raw press_raw = none := by
  rw [bmp280_read,
    compensate_pressure_of_zero_divisor c (compensate_temperature c temp_raw).1
      press_raw h]

/-! ## Claim theorems -/

/-- Claim C5 (amended): whenever the first-stage divisor is nonzero, the
compensated pressure equals the fixed-point pipeline's integer result
divided by 25600.0 (not by 256.0 as the claim states), and the compensated
temperature equals `((t_fine*5+128) >> 8) / 100.0`. -/
theorem C5_thm (c : Calib) (t_fine press_raw temp_raw : Int)
    (h : first_stage_divisor c t_fine ≠ 0) :
    compensate_pressure c t_fine press_raw
      = some ((p_fixed_pipeline c t_fine press_raw : ℚ) / 25600) ∧
    (compensate_temperature c temp_raw).2
      = ((shr ((compensate_temperature c temp_raw).1 * 5 + 128) 8 : ℤ) : ℚ)
          / 100 :=
  ⟨compensate_pressure_of_ne_divisor c t_fine press_raw h, rfl⟩

/-- Claim C5 witness: the amended claim instantiated at the datasheet
calibration table, `t_fine = 128422` (raw temperature 519888) and raw
pressure 415148. -/
theorem C5_witness :
    compensate_pressure calibEx 128422 415148
      = some ((p_fixed_pipeline calibEx 128422 415148 : ℚ) / 25600) ∧
    (compensate_temperature calibEx 519888).2
      = ((shr ((compensate_temperature calibEx 519888).1 * 5 + 128) 8 : ℤ) : ℚ)
          / 100 :=
  C5_thm calibEx 128422 415148 519888 (by decide)

/-- Claim C5 counterexample: at the datasheet inputs the compensation
returns `25767233 / 25600`, which is not `p_fixed / 256` as the claim
states (`p_fixed = 25767233` there). -/
theorem C5_cex :
    compensate_pressure calibEx 128422 415148 = some ((25767233 : ℚ) / 25600) ∧
    (25767233 : ℚ) / 25600
      ≠ ((p_fixed_pipeline calibEx 128422 415148 : ℚ) / 256) := by
  have hp : p_fixed_pipeline calibEx 128422 415148 = 25767233 := by decide
  have hd : first_stage_divisor calibEx 128422 ≠ 0 := by decide
  constructor
  · rw [compensate_pressure_of_ne_divisor calibEx 128422 415148 hd, hp]
    norm_num
  · rw [hp]
    norm_num

/-- Claim C6: a zero first-stage divisor makes the pressure compensation
report failure (no division is attempted), and the driver's read then
reports no fields instead of raising. -/
theorem C6_thm (c : Calib) (temp_raw press_raw : Int)
    (h : first_stage_divisor c (compensate_temperature c temp_raw).1 = 0) :
    compensate_pressure c (compensate_temperature c temp_raw).1 press_raw
      = none ∧
    bmp280_read c temp_raw press_raw = none :=
  ⟨compensate_pressure_of_zero_divisor c _ press_raw h,
   bmp280_read_of_zero_divisor c temp_raw press_raw h⟩

/-- Claim C6 witness: the calibration table with `dig_P1 = 0` makes the
divisor zero, so the read of raw inputs (519888, 415148) yields no
fields. -/
theorem C6_witness :
    compensate_pressure calibZ (compensate_temperature calibZ 519888).1 415148
      = none ∧
    bmp280_read calibZ 519888 415148 = none :=
  C6_thm calibZ 519888 415148 (by decide)

/-- Claim C7 (amended): `set_environment` writes the truncated words
`int((T+273.15)*64)` and `int(H/100*512)` - truncation toward zero, not
`round` as the claim states - each as a little-endian byte pair, low byte
`word & 0xFF` first, high byte `(word >> 8) & 0xFF` second. -/
theorem C7_thm (T H : ℚ) :
    set_environment T H
      = ((Int.emod (pyInt ((T + 273.15) * 64)) 256,
          Int.emod (shr (pyInt ((T + 273.15) * 64)) 8) 256),
         (Int.emod (pyInt (H / 100 * 512)) 256,
          Int.emod (shr (pyInt (H / 100 * 512)) 8) 256)) := rfl

/-- Claim C7 counterexample: at `T = 25`, `(25+273.15)*64 = 19081.6`; the
code writes the truncated word 19081 while the claimed `round` gives
19082.  Likewise at `H = 30`, `30/100*512 = 153.6`: code 153, claim
154. -/
theorem C7_cex :
    set_environment_temp_word 25 = 19081 ∧
    spec_claimed_temp_word 25 = 19082 ∧
    set_environment_rh_word 30 = 153 ∧
    spec_claimed_rh_word 30 = 154 := by
  have e1 : ((25 : ℚ) + 273.15) * 64 = 95408 / 5 := by norm_num
  have e2 : (30 : ℚ) / 100 * 512 = 768 / 5 := by norm_num
  have f1 : rfloor ((95408 : ℚ) / 5) = 19081 := by
    rw [rfloor_eq, Int.floor_eq_iff]
    norm_num
  have f2 : rfloor ((768 : ℚ) / 5) = 153 := by
    rw [rfloor_eq, Int.floor_eq_iff]
    norm_num
  refine ⟨?_, ?_, ?_, ?_⟩
  · rw [set_environment_temp_word, pyInt, if_pos (by norm_num), e1, f1]
  · rw [spec_claimed_temp_word, e1, roundHalfEven, f1,
      if_neg (by norm_num), if_pos (by norm_num)]
    decide
  · rw [set_environment_rh_word, pyInt, if_pos (by norm_num), e2, f2]
  · rw [spec_claimed_rh_word, e2, roundHalfEven, f2,
      if_neg (by norm_num), if_pos (by norm_num)]
    decide

/-- Claim C9: starting the buzzer while it is already active, with a live
auto-off timer, cancels that timer before the single fresh timer carrying
the new duration is armed; so each start call arms exactly one auto-off
callback and the deadline is reset to the fresh duration. -/
theorem C9_thm (st : BuzzerState) (d : ℚ) (t : BuzzerTimer)
    (hb : st.buzzing = true) (ht : st.timer = some t) :
    (start_buzzing st d true).2
      = [BuzzAction.setHigh, BuzzAction.cancel t.tid,
         BuzzAction.setLow, BuzzAction.arm st.nextId d] ∧
    countArms (start_buzzing st d true).2 = 1 ∧
    (start_buzzing st d true).1.timer = some ⟨st.nextId, d⟩ := by
  refine ⟨?_, ?_, ?_⟩ <;>
    simp [start_buzzing, stop_buzzing, hb, ht, countArms, isArm]

/-- Claim C9 witness: a buzzing state with live timer 4 and counter 5;
starting for 60 seconds cancels timer 4 before arming the single timer 5
with duration 60. -/
theorem C9_witness :
    (start_buzzing ⟨true, some ⟨4, 60⟩, 5⟩ 60 true).2
      = [BuzzAction.setHigh, BuzzAction.cancel 4,
         BuzzAction.setLow, BuzzAction.arm 5 60] ∧
    countArms (start_buzzing ⟨true, some ⟨4, 60⟩, 5⟩ 60 true).2 = 1 ∧
    (start_buzzing ⟨true, some ⟨4, 60⟩, 5⟩ 60 true).1.timer = some ⟨5, 60⟩ :=
  C9_thm ⟨true, some ⟨4, 60⟩, 5⟩ 60 ⟨4, 60⟩ rfl rfl

/-- Claim C10: a single-shot read increments the reading counter by
exactly one if and only if it returns a record, which happens if and only
if some driver contributed at least one field; when every driver fails it
returns `None` and leaves the collector state unchanged. -/
theorem C10_thm (altFn : ℚ → ℚ) (st : CollectorState) (env : CycleEnv) :
    ((read_single_measurement altFn st env).2.reading_count
        = st.reading_count + 1
      ↔ (read_single_measurement altFn st env).1.isSome = true) ∧
    ((read_single_measurement altFn st env).1.isSome = true
      ↔ cycleFields altFn st env ≠ []) ∧
    (cycleFields altFn st env = []
      → read_single_measurement altFn st env = (none, st)) := by
  by_cases h : cycleFields altFn st env = []
  · rw [read_single_of_no_fields altFn st env h]
    refine ⟨?_, ?_, fun _ => rfl⟩
    · simp
    · simp [h]
  · obtain ⟨⟨r, hr⟩, hst⟩ := read_single_of_fields altFn st env h
    refine ⟨?_, ?_, fun he => absurd he h⟩
    · rw [hst, hr]
      simp
    · rw [hr]
      simp [h]

/-- Claim C10 witness: with every driver failing the read returns `None`
and the state is untouched; with the AHT21 succeeding the counter
advances from 0 to 1. -/
theorem C10_witness :
    read_single_measurement altFn0 st0 envDead = (none, st0) ∧
    (read_single_measurement altFn0 st0 envA).2.reading_count
      = st0.reading_count + 1 :=
  ⟨(C10_thm altFn0 st0 envDead).2.2 rfl,
   ((C10_thm altFn0 st0 envA).1).mpr (by decide)⟩

/-- Claim C2: when every cycle of the window produced zero fields, the
windowed read returns the empty-window error dictionary
(`error_code = 1`, zero samples) and never an aggregated record. -/
theorem C2_thm (altFn : ℚ → ℚ) (st : CollectorState) (envs : List CycleEnv)
    (now : ℚ) (h : ∀ env ∈ envs, cycleFields altFn st env = []) :
    (collect_multiple_readings altFn st envs now).1 = CollectResult.err now 0 ∧
    ∀ record, (collect_multiple_readings altFn st envs now).1
        ≠ CollectResult.ok record := by
  rw [collect_of_all_empty altFn st envs now h]
  exact ⟨rfl, fun record hc => CollectResult.noConfusion hc⟩

/-- Claim C2 witness: one cycle, all drivers dead, yields the error
dictionary. -/
theorem C2_witness :
    (collect_multiple_readings altFn0 st0 [envDead] 7).1
      = CollectResult.err 7 0 :=
  (C2_thm altFn0 st0 [envDead] 7 (fun env he => by
    rw [List.mem_singleton] at he
    subst he
    rfl)).1

/-- Claim C8 (amended): after `close` has run, every read fails - the
single-shot read returns no record and leaves the closed state unchanged,
and the windowed read returns the empty-window error dictionary - but no
distinct NotInitialized error exists anywhere in the code. -/
theorem C8_thm (altFn : ℚ → ℚ) (st : CollectorState) (env : CycleEnv)
    (envs : List CycleEnv) (now : ℚ) :
    read_single_measurement altFn (close st) env = (none, close st) ∧
    (collect_multiple_readings altFn (close st) envs now).1
      = CollectResult.err now 0 :=
  ⟨read_single_of_no_fields altFn (close st) env (cycleFields_close altFn st env),
   by rw [collect_after_close altFn st envs now]⟩

/-- Claim C8 counterexample: after closing the fully-initialised `st0`,
a read in an environment where the AHT21 would succeed still returns
`None`/the generic empty-window dictionary - bit-identical to the result
of an open collector whose sensors all fail - so the failure after Closed
is not a distinct `NotInitialized` error. -/
theorem C8_cex :
    read_single_measurement altFn0 (close st0) envA = (none, close st0) ∧
    (collect_multiple_readings altFn0 (close st0) [envA] 99).1
      = CollectResult.err 99 0 ∧
    (collect_multiple_readings altFn0 (close st0) [envA] 99).1
      = (collect_multiple_readings altFn0 st0 [envDead] 99).1 := by
  have hdead : ∀ env ∈ [envDead], cycleFields altFn0 st0 env = [] := by
    intro env he
    rw [List.mem_singleton] at he
    subst he
    rfl
  refine ⟨read_single_of_no_fields altFn0 (close st0) envA
      (cycleFields_close altFn0 st0 envA), ?_, ?_⟩
  · rw [collect_after_close altFn0 st0 [envA] 99]
  · rw [collect_after_close altFn0 st0 [envA] 99,
      collect_of_all_empty altFn0 st0 [envDead] 99 hdead]

/-- Claim C3 (amended): in a non-empty window, a categorical field
(gas-index tier, analog-gas status tier, temperature-source tag) reduces
to the chronologically last Reading's value for it when that Reading
contains it and to the default 0 otherwise; every other field except
altitude reduces to the arithmetic mean of its collected values rounded to
2 decimal places. -/
theorem C3_thm (altFn : ℚ → ℚ) (now : ℚ) (readings : List Reading)
    (k : Field) (hne : readings ≠ []) (hv : fieldValues readings k ≠ []) :
    (k ∈ categorical →
      getField (calculate_averages altFn now readings) k
        = some (getFieldD (readings.getLastD []) k 0)) ∧
    (k ∉ categorical → k ≠ Field.altitude →
      getField (calculate_averages altFn now readings) k
        = some (round2 (mean (fieldValues readings k)))) := by
  constructor
  · intro hc
    have hka : k ≠ Field.altitude := by
      intro e
      subst e
      exact absurd hc (by decide)
    rw [getField_calculate_averages altFn now readings hne hv hka, if_pos hc]
  · intro hc hka
    rw [getField_calculate_averages altFn now readings hne hv hka, if_neg hc]

/-- Claim C3 witness: over the window `[r1, r2]` the categorical `aqi`
takes the last reading's default and the continuous `temperature` takes
the rounded mean. -/
theorem C3_witness :
    getField (calculate_averages altFn0 0 [r1, r2]) Field.aqi
      = some (getFieldD ([r1, r2].getLastD []) Field.aqi 0) ∧
    getField (calculate_averages altFn0 0 [r1, r2]) Field.temperature
      = some (round2 (mean (fieldValues [r1, r2] Field.temperature))) :=
  ⟨(C3_thm altFn0 0 [r1, r2] Field.aqi (by decide) (by decide)).1 (by decide),
   (C3_thm altFn0 0 [r1, r2] Field.temperature (by decide) (by decide)).2
     (by decide) (by decide)⟩

/-- Claim C3 counterexample: in the window `[r1, r2]`, `aqi` is present
only in `r1` (with value 3), so the last Reading containing it holds 3;
the code instead reduces `aqi` to the default 0 because the final reading
`r2` lacks it.  Also, `altitude` does not reduce to the rounded mean 15 of
its values [10, 20] but to `altFn` of the reduced pressure. -/
theorem C3_cex :
    getField (calculate_averages altFn0 0 [r1, r2]) Field.aqi = some 0 ∧
    lastReadingContaining [r1, r2] Field.aqi = some 3 ∧
    (0 : ℚ) ≠ 3 ∧
    getField (calculate_averages altFn0 0 [r1, r2]) Field.altitude
      = some (altFn0 1005) ∧
    altFn0 1005 ≠ round2 (mean (fieldValues [r1, r2] Field.altitude)) := by
  have h1005 : round2 (1005 : ℚ) = 1005 := by
    have h := round2_intCast 1005
    norm_num at h
    exact h
  have h15 : round2 (15 : ℚ) = 15 := by
    have h := round2_intCast 15
    norm_num at h
    exact h
  refine ⟨by decide, by decide, by norm_num, ?_, ?_⟩
  · have hp : getField (calculate_averages altFn0 0 [r1, r2]) Field.pressure
        = some 1005 := by
      have h := getField_calculate_averages altFn0 0 [r1, r2]
        (k := Field.pressure) (by decide) (by decide) (by decide)
      rw [if_neg (by decide)] at h
      rw [h]
      have hfv : fieldValues [r1, r2] Field.pressure = [1000, 1010] := by decide
      rw [hfv, mean_pair]
      norm_num [h1005]
    exact calculate_averages_altitude altFn0 0 [r1, r2] (by decide) hp
  · have hfv : fieldValues [r1, r2] Field.altitude = [10, 20] := by decide
    rw [hfv, mean_pair]
    norm_num [altFn0, h15]

/-- Claim C4: whenever the reduced record contains a pressure value, its
altitude field is the altitude function applied to that reduced pressure
(not an average of per-reading altitudes); stated for an arbitrary
altitude function. -/
theorem C4_thm (altFn : ℚ → ℚ) (now : ℚ) (readings : List Reading) (p : ℚ)
    (hne : readings ≠ [])
    (hp : getField (calculate_averages altFn now readings) Field.pressure
      = some p) :
    getField (calculate_averages altFn now readings) Field.altitude
      = some (altFn p) :=
  calculate_averages_altitude altFn now readings hne hp

/-- Claim C4 witness: a one-reading window with pressure 1000 reduces to
pressure 1000 and altitude `altFn0 1000`. -/
theorem C4_witness :
    getField (calculate_averages altFn0 7 [rp]) Field.altitude
      = some (altFn0 1000) :=
  C4_thm altFn0 7 [rp] 1000 (by decide) (by
    have h := getField_calculate_averages altFn0 7 [rp]
      (k := Field.pressure) (by decide) (by decide) (by decide)
    rw [if_neg (by decide)] at h
    rw [h]
    have hfv : fieldValues [rp] Field.pressure = [1000] := by decide
    rw [hfv, mean_singleton]
    have h1000 : round2 (1000 : ℚ) = 1000 := by
      have h2 := round2_intCast 1000
      norm_num at h2
      exact h2
    rw [h1000])

/-- Claim C1: the windowed aggregation is supposed to tag its record with
`data_source = 1`, but the reduction loop collects the per-reading
`data_source` values (every single-shot reading carries 0) and overwrites
the preset tag with their mean 0; the produced record therefore carries
the single-shot tag 0, contradicting the code's own comment.  Evaluated on
the full pipeline: a one-cycle window over `envA`. -/
theorem C1_thm :
    (read_single_measurement altFn0 st0 envA).1 = some r0 ∧
    getField r0 Field.data_source = some 0 ∧
    record_data_source (collect_multiple_readings altFn0 st0 [envA] 200).1
      = some 0 ∧
    (0 : ℚ) ≠ 1 := by
  have hr : read_single_measurement altFn0 st0 envA
      = (some r0, { st0 with reading_count := st0.reading_count + 1 }) := by
    decide
  have hfold : [envA].foldl (collectStep altFn0) ([], st0)
      = ([r0], { st0 with reading_count := st0.reading_count + 1 }) := by
    simp [collectStep, hr]
  have hcol : (collect_multiple_readings altFn0 st0 [envA] 200).1
      = CollectResult.ok (calculate_averages altFn0 200 [r0]) := by
    rw [collect_multiple_readings, hfold]
    rfl
  refine ⟨by rw [hr], by decide, ?_, by norm_num⟩
  rw [hcol]
  show getField (calculate_averages altFn0 200 [r0]) Field.data_source = some 0
  have h := getField_calculate_averages altFn0 200 [r0]
    (k := Field.data_source) (by decide) (by decide) (by decide)
  rw [if_neg (by decide)] at h
  rw [h]
  have hfv : fieldValues [r0] Field.data_source = [0] := by decide
  rw [hfv, mean_singleton]
  have h0 : round2 (0 : ℚ) = 0 := by
    have h2 := round2_intCast 0
    norm_num at h2
    exact h2
  rw [h0]

end BerryBerry
